import Mathlib

/-!
Verification of the order-book reconstruction engine of the
Market-Prediction repository.

The definitions below are a shallow embedding of
`_archive_old_structure/legacy_data_pipeline/stage2_orderbook_builder.py`
(the basic, CPU builder: classes `OrderBook` and `OrderBookSnapshotBuilder`)
and of
`_archive_old_structure/legacy_data_pipeline/stage2_orderbook_builder_GPU.py`
(the EMA variant: classes `OrderBookGPU` and `OrderBookSnapshotBuilderGPU`).

Modelling conventions:
- Python floats are modelled as rationals; the literal 0.10 is modelled as
  1/10. Rational division is total with x / 0 = 0; the Python code would
  raise ZeroDivisionError there, and such inputs never occur in the runs
  the theorems below reason about.
- Python dicts (price -> quantity ladders, the per-product maps of the
  driver) are modelled as association lists in insertion order with the
  dict upsert / pop semantics (`dinsert`, `dpop`, `dlookup`).
- The ticker lookup built by `load_ticker_data` is modelled as the finished
  table: a list of (timestamp, product, fields) entries with unique
  (timestamp, product) keys, queried by `tickerExact`.
- pandas timestamps are modelled as rationals (seconds);
  `(a - b).total_seconds()` becomes rational subtraction.
- Branches of the Python code that can only be reached by breaking the
  driver invariant (a non-empty snapshot buffer always comes with a set
  current product and current timestamp) would raise in Python; they are
  modelled as no-ops and are unreachable in every run considered here.
- Progress printing, event-type tallies and CSV/file I/O are not part of
  the model; the emitted rows are collected in a list in emission order.
-/

/-- Association-list lookup with decidable key equality (Python `d.get(k)`). -/
def dlookup {κ α : Type} [DecidableEq κ] (m : List (κ × α)) (k : κ) : Option α :=
  match m with
  | [] => none
  | kv :: rest => if kv.1 = k then some kv.2 else dlookup rest k

/-- Python dict upsert `d[k] = v`: replace in place if the key is present
(keys are unique in every map built here, as in a Python dict), append
otherwise — insertion order is preserved, as for a Python dict. -/
def dinsert {κ α : Type} [DecidableEq κ] (m : List (κ × α)) (k : κ) (v : α) :
    List (κ × α) :=
  match m with
  | [] => [(k, v)]
  | kv :: rest => if kv.1 = k then (k, v) :: rest else kv :: dinsert rest k v

/-- Python `d.pop(k, None)`: remove the key if present. -/
def dpop {κ α : Type} [DecidableEq κ] (m : List (κ × α)) (k : κ) : List (κ × α) :=
  m.filter (fun kv => decide (kv.1 ≠ k))

/-- One ladder entry of a snapshot-kind batch (columns `side`, `price_level`,
`new_quantity` of a buffered event row). -/
structure SnapEntry where
  side : String
  price_level : ℚ
  new_quantity : ℚ
deriving DecidableEq, Repr

/-- `OrderBook` of the basic builder: per-product bid/ask ladders. -/
structure OrderBook where
  product_id : String
  bids : List (ℚ × ℚ)
  asks : List (ℚ × ℚ)
deriving DecidableEq, Repr

/-- `OrderBook.apply_snapshot`: clear both ladders, then insert every batch
entry as given (`bids[price] = qty` / `asks[price] = qty`; any side other
than the string bid goes to the asks ladder, and zero quantities are
inserted like any other value). -/
def OrderBook.apply_snapshot (b : OrderBook) (events : List SnapEntry) : OrderBook :=
  events.foldl
    (fun acc e =>
      if e.side = "bid" then { acc with bids := dinsert acc.bids e.price_level e.new_quantity }
      else { acc with asks := dinsert acc.asks e.price_level e.new_quantity })
    { b with bids := [], asks := [] }

/-- The unconditional mutation step of `OrderBook.apply_update` (the code
after the outlier filter): quantity 0 pops the price key, any non-zero
quantity upserts it; any side other than the string bid is the offer side. -/
def OrderBook.apply_update_core (b : OrderBook) (side : String) (price quantity : ℚ) :
    OrderBook :=
  if side = "bid" then
    if quantity = 0 then { b with bids := dpop b.bids price }
    else { b with bids := dinsert b.bids price quantity }
  else
    if quantity = 0 then { b with asks := dpop b.asks price }
    else { b with asks := dinsert b.asks price quantity }

/-- `OrderBook.apply_update` with its outlier filter: when filtering is on
and a reference mid price is supplied, a price more than 10 percent away
from it is dropped (the book is returned unchanged). -/
def OrderBook.apply_update (b : OrderBook) (side : String) (price quantity : ℚ)
    (filter_outliers : Bool) (last_mid_price : Option ℚ) : OrderBook :=
  match filter_outliers, last_mid_price with
  | true, some m =>
      if |price - m| / m > 1 / 10 then b
      else b.apply_update_core side price quantity
  | _, _ => b.apply_update_core side price quantity

/-- Descending order on (price, quantity) pairs, the order of Python
`sorted(items, reverse=True)` on 2-tuples: `x` comes before `y`. -/
def bidOrd (x y : ℚ × ℚ) : Prop := y.1 < x.1 ∨ (y.1 = x.1 ∧ y.2 ≤ x.2)

/-- Ascending order on (price, quantity) pairs, the order of Python
`sorted(items)` on 2-tuples. -/
def askOrd (x y : ℚ × ℚ) : Prop := x.1 < y.1 ∨ (x.1 = y.1 ∧ x.2 ≤ y.2)

instance bidOrdDec : DecidableRel bidOrd := fun x y =>
  inferInstanceAs (Decidable (y.1 < x.1 ∨ (y.1 = x.1 ∧ y.2 ≤ x.2)))

instance askOrdDec : DecidableRel askOrd := fun x y =>
  inferInstanceAs (Decidable (x.1 < y.1 ∨ (x.1 = y.1 ∧ x.2 ≤ y.2)))

instance bidOrdTotal : IsTotal (ℚ × ℚ) bidOrd where
  total a b := by
    unfold bidOrd
    rcases lt_trichotomy a.1 b.1 with h | h | h
    · exact Or.inr (Or.inl h)
    · rcases le_total a.2 b.2 with h2 | h2
      · exact Or.inr (Or.inr ⟨h, h2⟩)
      · exact Or.inl (Or.inr ⟨h.symm, h2⟩)
    · exact Or.inl (Or.inl h)

instance bidOrdTrans : IsTrans (ℚ × ℚ) bidOrd where
  trans a b c hab hbc := by
    unfold bidOrd at *
    rcases hab with h1 | ⟨e1, q1⟩
    · rcases hbc with h2 | ⟨e2, q2⟩
      · exact Or.inl (h2.trans h1)
      · exact Or.inl (e2 ▸ h1)
    · rcases hbc with h2 | ⟨e2, q2⟩
      · exact Or.inl (e1 ▸ h2)
      · exact Or.inr ⟨e2.trans e1, q2.trans q1⟩

instance askOrdTotal : IsTotal (ℚ × ℚ) askOrd where
  total a b := by
    unfold askOrd
    rcases lt_trichotomy a.1 b.1 with h | h | h
    · exact Or.inl (Or.inl h)
    · rcases le_total a.2 b.2 with h2 | h2
      · exact Or.inl (Or.inr ⟨h, h2⟩)
      · exact Or.inr (Or.inr ⟨h.symm, h2⟩)
    · exact Or.inr (Or.inl h)

instance askOrdTrans : IsTrans (ℚ × ℚ) askOrd where
  trans a b c hab hbc := by
    unfold askOrd at *
    rcases hab with h1 | ⟨e1, q1⟩
    · rcases hbc with h2 | ⟨e2, q2⟩
      · exact Or.inl (h1.trans h2)
      · exact Or.inl (e2 ▸ h1)
    · rcases hbc with h2 | ⟨e2, q2⟩
      · exact Or.inl (e1 ▸ h2)
      · exact Or.inr ⟨e1.trans e2, q1.trans q2⟩

/-- The feature record returned by `OrderBook.get_snapshot_features`. -/
structure Features where
  best_bid : ℚ
  best_ask : ℚ
  bid_volume_10 : ℚ
  ask_volume_10 : ℚ
deriving DecidableEq, Repr

/-- `OrderBook.get_snapshot_features`: `None` when a side is empty, else sort
both ladders, take the top 10 levels per side, and reject a crossed book
(`best_bid >= best_ask`); otherwise return best prices and top-10 volumes. -/
def OrderBook.get_snapshot_features (b : OrderBook) : Option Features :=
  if b.bids.isEmpty || b.asks.isEmpty then none
  else
    let top_bids := (List.insertionSort bidOrd b.bids).take 10
    let top_asks := (List.insertionSort askOrd b.asks).take 10
    let best_bid := (top_bids.headD (0, 0)).1
    let best_ask := (top_asks.headD (0, 0)).1
    if best_bid ≥ best_ask then none
    else
      some { best_bid := best_bid, best_ask := best_ask,
             bid_volume_10 := (top_bids.map Prod.snd).sum,
             ask_volume_10 := (top_asks.map Prod.snd).sum }

/-- `OrderBookGPU` of the EMA variant: ladders plus the EMA reference mid. -/
structure OrderBookGPU where
  product_id : String
  bids : List (ℚ × ℚ)
  asks : List (ℚ × ℚ)
  ema_mid : Option ℚ
deriving DecidableEq, Repr

/-- The EMA smoothing factor `alpha = 0.05` of `OrderBookGPU`. -/
def gpuAlpha : ℚ := 1 / 20

/-- `OrderBookGPU._update_ema`: seed on first observation, else
`ema <- alpha * mid + (1 - alpha) * ema`. -/
def OrderBookGPU.update_ema (b : OrderBookGPU) (current_mid : ℚ) : OrderBookGPU :=
  match b.ema_mid with
  | none => { b with ema_mid := some current_mid }
  | some e => { b with ema_mid := some (gpuAlpha * current_mid + (1 - gpuAlpha) * e) }

/-- `OrderBookGPU._is_outlier`: false while the EMA is unseeded, else true
when the price is more than 10 percent away from the EMA mid. -/
def OrderBookGPU.is_outlier (b : OrderBookGPU) (price : ℚ) : Bool :=
  match b.ema_mid with
  | none => false
  | some e => decide (|price - e| / e > 1 / 10)

/-- Maximum of a list of rationals (Python `max` over a non-empty sequence;
the empty case, which would raise in Python, returns 0). -/
def qListMax : List ℚ → ℚ
  | [] => 0
  | x :: xs => xs.foldl max x

/-- Minimum of a list of rationals (Python `min` over a non-empty sequence;
the empty case, which would raise in Python, returns 0). -/
def qListMin : List ℚ → ℚ
  | [] => 0
  | x :: xs => xs.foldl min x

/-- `OrderBookGPU.apply_snapshot`: clear and rebuild both ladders from the
batch entries as given, then seed the EMA from the new mid price when both
sides are non-empty. -/
def OrderBookGPU.apply_snapshot (b : OrderBookGPU) (events : List SnapEntry) :
    OrderBookGPU :=
  let b1 := events.foldl
    (fun acc e =>
      if e.side = "bid" then { acc with bids := dinsert acc.bids e.price_level e.new_quantity }
      else { acc with asks := dinsert acc.asks e.price_level e.new_quantity })
    { b with bids := [], asks := [] }
  if !b1.bids.isEmpty && !b1.asks.isEmpty then
    b1.update_ema ((qListMax (b1.bids.map Prod.fst) + qListMin (b1.asks.map Prod.fst)) / 2)
  else b1

/-- The unconditional mutation step of `OrderBookGPU.apply_update`. -/
def OrderBookGPU.apply_update_core (b : OrderBookGPU) (side : String)
    (price quantity : ℚ) : OrderBookGPU :=
  if side = "bid" then
    if quantity = 0 then { b with bids := dpop b.bids price }
    else { b with bids := dinsert b.bids price quantity }
  else
    if quantity = 0 then { b with asks := dpop b.asks price }
    else { b with asks := dinsert b.asks price quantity }

/-- `OrderBookGPU.apply_update`: silently drop the update when the price is
an outlier with respect to the EMA mid, else mutate the ladder. -/
def OrderBookGPU.apply_update (b : OrderBookGPU) (side : String)
    (price quantity : ℚ) : OrderBookGPU :=
  if b.is_outlier price then b
  else b.apply_update_core side price quantity

/-- The feature record returned by `OrderBookGPU.get_snapshot_features`. -/
structure FeaturesGPU where
  best_bid : ℚ
  best_ask : ℚ
  mid_price : ℚ
  spread : ℚ
  best_bid_size : ℚ
  best_ask_size : ℚ
  bid_volume_10 : ℚ
  ask_volume_10 : ℚ
  total_depth : ℚ
  microprice : ℚ
  depth_weighted_price : ℚ
  order_imbalance : ℚ
  bid_vwap : ℚ
  ask_vwap : ℚ
  market_impact_bps : ℚ
deriving DecidableEq, Repr

/-- The `compute_vwap` helper of `OrderBookGPU.get_snapshot_features` over the
top 5 levels (its `is_bid` argument is unused in the source and dropped). -/
def computeVwap (levels : List (ℚ × ℚ)) : ℚ :=
  let top := levels.take 5
  let vwap_sum := (top.map (fun x => x.1 * x.2)).sum
  let vol_sum := (top.map Prod.snd).sum
  if vol_sum > 0 then vwap_sum / vol_sum
  else match levels with
  | [] => 0
  | x :: _ => x.1

/-- The market-impact walk of `OrderBookGPU.get_snapshot_features` over the
ask levels: consume `order_size` volume, returning the pair
(cumulative volume, cumulative price * volume). -/
def impactWalk : List (ℚ × ℚ) → ℚ → ℚ → ℚ → ℚ × ℚ
  | [], _, cv, ip => (cv, ip)
  | l :: rest, os, cv, ip =>
    if cv ≥ os then (cv, ip)
    else impactWalk rest os (cv + min l.2 (os - cv)) (ip + l.1 * min l.2 (os - cv))

/-- Character-list prefix test helper for Python substring containment. -/
def leadMatch : List Char → List Char → Bool
  | [], _ => true
  | _ :: _, [] => false
  | p :: ps, c :: cs => p = c && leadMatch ps cs

/-- Character-list substring test helper for Python substring containment. -/
def tagInside (pat : List Char) : List Char → Bool
  | [] => leadMatch pat []
  | c :: cs => leadMatch pat (c :: cs) || tagInside pat cs

/-- Python `'BTC' in product_id`. -/
def containsBTC (s : String) : Bool :=
  tagInside ['B', 'T', 'C'] s.data

/-- `OrderBookGPU.get_snapshot_features`: same availability conditions as the
basic variant (`None` on an empty side or a crossed book), and on success it
also updates the EMA mid — the mutated book is returned alongside the
features. -/
def OrderBookGPU.get_snapshot_features (b : OrderBookGPU) :
    Option FeaturesGPU × OrderBookGPU :=
  if b.bids.isEmpty || b.asks.isEmpty then (none, b)
  else
    let top_bids := (List.insertionSort bidOrd b.bids).take 10
    let top_asks := (List.insertionSort askOrd b.asks).take 10
    let best_bid := (top_bids.headD (0, 0)).1
    let best_ask := (top_asks.headD (0, 0)).1
    if best_bid ≥ best_ask then (none, b)
    else
      let mid_price := (best_bid + best_ask) / 2
      let b1 := b.update_ema mid_price
      let bid_volume_10 := (top_bids.map Prod.snd).sum
      let ask_volume_10 := (top_asks.map Prod.snd).sum
      let total_size := bid_volume_10 + ask_volume_10
      let microprice :=
        if total_size > 0 then
          (best_bid * ask_volume_10 + best_ask * bid_volume_10) / total_size
        else mid_price
      let order_imbalance :=
        if total_size > 0 then (bid_volume_10 - ask_volume_10) / total_size else 0
      let order_size : ℚ := if containsBTC b.product_id then 1 / 10 else 1
      let walk := impactWalk top_asks order_size 0 0
      let slippage_bps :=
        if walk.1 > 0 then ((walk.2 / walk.1 - best_ask) / best_ask) * 10000 else 0
      (some { best_bid := best_bid, best_ask := best_ask, mid_price := mid_price,
              spread := best_ask - best_bid,
              best_bid_size := (top_bids.headD (0, 0)).2,
              best_ask_size := (top_asks.headD (0, 0)).2,
              bid_volume_10 := bid_volume_10, ask_volume_10 := ask_volume_10,
              total_depth := bid_volume_10 + ask_volume_10,
              microprice := microprice, depth_weighted_price := microprice,
              order_imbalance := order_imbalance,
              bid_vwap := computeVwap top_bids, ask_vwap := computeVwap top_asks,
              market_impact_bps := slippage_bps }, b1)

/-- The ticker fields stored per (timestamp, product) in the ticker lookup. -/
structure TickerInfo where
  ticker_price : ℚ
  ticker_volume_24h : ℚ
  ticker_low_24h : ℚ
  ticker_high_24h : ℚ
  ticker_price_change_24h_pct : ℚ
deriving DecidableEq, Repr

/-- One row of the ticker lookup table built by `load_ticker_data`. -/
structure TickerEntry where
  timestamp : ℚ
  product_id : String
  fields : TickerInfo
deriving DecidableEq, Repr

/-- The finished ticker lookup (a mapping, so entries are assumed to carry
unique (timestamp, product) keys, as a Python dict-of-dicts guarantees). -/
def TickerLookup : Type := List TickerEntry

/-- Exact lookup `ticker_lookup.get(ts, \x7b\x7d).get(product_id, \x7b\x7d)`. -/
def tickerExact (tk : TickerLookup) (t : ℚ) (p : String) : Option TickerInfo :=
  match tk with
  | [] => none
  | e :: rest =>
    if e.timestamp = t ∧ e.product_id = p then some e.fields
    else tickerExact rest t p

/-- The tolerance scan of the update-path emission: for each offset try
`t + d` then `t - d`, first hit wins. -/
def tickerDeltaScan (tk : TickerLookup) (t : ℚ) (p : String) :
    List ℚ → Option TickerInfo
  | [] => none
  | d :: ds =>
    match tickerExact tk (t + d) p with
    | some x => some x
    | none =>
      match tickerExact tk (t - d) p with
      | some x => some x
      | none => tickerDeltaScan tk t p ds

/-- Ticker lookup as done on the update-path emission: exact match first,
else offsets +1s, -1s, +2s, -2s, ... up to 5 seconds. -/
def tickerSearch (tk : TickerLookup) (t : ℚ) (p : String) : Option TickerInfo :=
  match tickerExact tk t p with
  | some x => some x
  | none => tickerDeltaScan tk t p [1, 2, 3, 4, 5]

/-- One row of the level2 event log, as consumed by the drivers. -/
structure Event where
  timestamp : ℚ
  event_type : String
  product_id : String
  side : String
  price_level : ℚ
  new_quantity : ℚ
deriving DecidableEq, Repr

/-- One emitted snapshot row of the basic builder (`writer.writerow` with the
feature fields and the possibly-empty ticker fields). -/
structure Row where
  timestamp : ℚ
  product_id : String
  feats : Features
  ticker_data : Option TickerInfo
deriving DecidableEq, Repr

/-- The loop state of `OrderBookSnapshotBuilder.build_snapshots`. -/
structure Engine where
  orderbooks : List (String × OrderBook)
  last_snapshot_time : List (String × ℚ)
  current_timestamp : Option ℚ
  current_product : Option String
  snapshot_events : List SnapEntry
  snapshots : List Row
  snapshot_count : Nat
  crossed_book_count : Nat
deriving DecidableEq, Repr

/-- The initial loop state of the basic builder. -/
def Engine.init : Engine :=
  { orderbooks := [], last_snapshot_time := [], current_timestamp := none,
    current_product := none, snapshot_events := [], snapshots := [],
    snapshot_count := 0, crossed_book_count := 0 }

/-- `orderbooks[product_id]` (the key is always present when read). -/
def Engine.get_book (s : Engine) (p : String) : OrderBook :=
  (dlookup s.orderbooks p).getD { product_id := p, bids := [], asks := [] }

/-- Store a product's book back into the driver map. -/
def Engine.set_book (s : Engine) (p : String) (b : OrderBook) : Engine :=
  { s with orderbooks := dinsert s.orderbooks p b }

/-- `if product_id not in orderbooks: orderbooks[product_id] = OrderBook(...)`. -/
def Engine.ensure_book (s : Engine) (p : String) : Engine :=
  match dlookup s.orderbooks p with
  | some _ => s
  | none => { s with orderbooks := dinsert s.orderbooks p { product_id := p, bids := [], asks := [] } }

/-- The emission-time test of the update path: `last_snapshot_time` unset
means an infinite time difference, so the test passes; otherwise the elapsed
time must reach the snapshot interval. -/
def Engine.emit_due (s : Engine) (p : String) (t interval : ℚ) : Bool :=
  match dlookup s.last_snapshot_time p with
  | none => true
  | some lt => decide (t - lt ≥ interval)

/-- Closing a pending snapshot batch from the snapshot branch (lines 200-217
of the basic builder): apply the batch to the current product's book, clear
the buffer, and always attempt an emission — features available means a row
is written with an exact-match ticker lookup and `last_snapshot_time` is set
to the batch timestamp. -/
def Engine.close_batch_emit (tk : TickerLookup) (s : Engine) : Engine :=
  match s.snapshot_events, s.current_product, s.current_timestamp with
  | [], _, _ => s
  | _, none, _ => s
  | _, _, none => s
  | es, some p, some t =>
    let b := (s.get_book p).apply_snapshot es
    let s1 := { s.set_book p b with snapshot_events := [] }
    match b.get_snapshot_features with
    | none => s1
    | some f =>
      { s1 with
        snapshots := s1.snapshots ++ [{ timestamp := t, product_id := p, feats := f,
                                        ticker_data := tickerExact tk t p }],
        snapshot_count := s1.snapshot_count + 1,
        last_snapshot_time := dinsert s1.last_snapshot_time p t }

/-- Flushing a pending snapshot batch from the update branch (lines 231-236
of the basic builder): apply the batch to the current product's book, clear
the buffer and reset the batch key — no emission is attempted here. -/
def Engine.flush_batch_silent (s : Engine) : Engine :=
  match s.snapshot_events, s.current_product with
  | [], _ => s
  | _, none => s
  | es, some p =>
    { s.set_book p ((s.get_book p).apply_snapshot es) with
      snapshot_events := [], current_timestamp := none, current_product := none }

/-- The snapshot-kind branch of the basic builder loop: a differing
(timestamp, product) key closes any pending batch (with an emission attempt)
and re-keys the accumulator; the entry is then buffered. -/
def Engine.snapshot_branch (tk : TickerLookup) (s : Engine) (e : Event) : Engine :=
  let s1 :=
    if s.current_timestamp = some e.timestamp ∧ s.current_product = some e.product_id then s
    else
      { s.close_batch_emit tk with
        current_timestamp := some e.timestamp, current_product := some e.product_id }
  { s1 with
    snapshot_events := s1.snapshot_events ++ [{ side := e.side, price_level := e.price_level,
                                                new_quantity := e.new_quantity }] }

/-- The update-kind branch of the basic builder loop: silently flush any
pending batch, apply the update with filtering on but no reference mid price,
then — when the interval test passes — attempt an emission, counting a
crossed/empty book and otherwise writing a row with the tolerant ticker
lookup and setting `last_snapshot_time`. -/
def Engine.update_branch (tk : TickerLookup) (interval : ℚ) (s : Engine) (e : Event) :
    Engine :=
  let s1 := s.flush_batch_silent
  let b1 := (s1.get_book e.product_id).apply_update e.side e.price_level e.new_quantity
              true none
  let s2 := s1.set_book e.product_id b1
  if s2.emit_due e.product_id e.timestamp interval then
    match b1.get_snapshot_features with
    | none => { s2 with crossed_book_count := s2.crossed_book_count + 1 }
    | some f =>
      { s2 with
        snapshots := s2.snapshots ++ [{ timestamp := e.timestamp, product_id := e.product_id,
                                        feats := f,
                                        ticker_data := tickerSearch tk e.timestamp e.product_id }],
        snapshot_count := s2.snapshot_count + 1,
        last_snapshot_time := dinsert s2.last_snapshot_time e.product_id e.timestamp }
  else s2

/-- One iteration of the basic builder loop: lazily create the product's
book, then dispatch on the event type (any other type only feeds the
event-type tally, which is not modelled). -/
def Engine.step (tk : TickerLookup) (interval : ℚ) (s : Engine) (e : Event) : Engine :=
  let s0 := s.ensure_book e.product_id
  if e.event_type = "snapshot" then s0.snapshot_branch tk e
  else if e.event_type = "update" then Engine.update_branch tk interval s0 e
  else s0

/-- The end-of-input flush of the basic builder (lines 290-304): a still-open
batch with a truthy current product is applied and an emission is attempted
(exact ticker lookup; `last_snapshot_time` is not touched here). -/
def Engine.final_flush (tk : TickerLookup) (s : Engine) : Engine :=
  match s.snapshot_events, s.current_product, s.current_timestamp with
  | [], _, _ => s
  | _, none, _ => s
  | _, _, none => s
  | es, some p, some t =>
    if p = "" then s
    else
      let b := (s.get_book p).apply_snapshot es
      let s1 := s.set_book p b
      match b.get_snapshot_features with
      | none => s1
      | some f =>
        { s1 with
          snapshots := s1.snapshots ++ [{ timestamp := t, product_id := p, feats := f,
                                          ticker_data := tickerExact tk t p }],
          snapshot_count := s1.snapshot_count + 1 }

/-- `OrderBookSnapshotBuilder.build_snapshots` on a decoded event list:
fold the loop over the events, then flush any final pending batch. -/
def build_snapshots (tk : TickerLookup) (interval : ℚ) (events : List Event) : Engine :=
  Engine.final_flush tk (events.foldl (Engine.step tk interval) Engine.init)

/-- One emitted snapshot row of the GPU builder. -/
structure RowGPU where
  timestamp : ℚ
  product_id : String
  feats : FeaturesGPU
  ticker_data : Option TickerInfo
deriving DecidableEq, Repr

/-- The loop state of `OrderBookSnapshotBuilderGPU.build_snapshots`. -/
structure EngineG where
  orderbooks : List (String × OrderBookGPU)
  last_snapshot_time : List (String × ℚ)
  current_timestamp : Option ℚ
  current_product : Option String
  snapshot_events : List SnapEntry
  snapshots : List RowGPU
  snapshot_count : Nat
  crossed_book_count : Nat
  outliers_filtered : Nat
deriving DecidableEq, Repr

/-- The initial loop state of the GPU builder. -/
def EngineG.init : EngineG :=
  { orderbooks := [], last_snapshot_time := [], current_timestamp := none,
    current_product := none, snapshot_events := [], snapshots := [],
    snapshot_count := 0, crossed_book_count := 0, outliers_filtered := 0 }

/-- `orderbooks[product_id]` of the GPU driver. -/
def EngineG.get_book (s : EngineG) (p : String) : OrderBookGPU :=
  (dlookup s.orderbooks p).getD { product_id := p, bids := [], asks := [], ema_mid := none }

/-- Store a product's book back into the GPU driver map. -/
def EngineG.set_book (s : EngineG) (p : String) (b : OrderBookGPU) : EngineG :=
  { s with orderbooks := dinsert s.orderbooks p b }

/-- Lazy book creation of the GPU driver. -/
def EngineG.ensure_book (s : EngineG) (p : String) : EngineG :=
  match dlookup s.orderbooks p with
  | some _ => s
  | none =>
    let fresh : OrderBookGPU := { product_id := p, bids := [], asks := [], ema_mid := none }
    { s with orderbooks := dinsert s.orderbooks p fresh }

/-- The emission-time test of the GPU update path (identical to the basic
builder: unset means infinity). -/
def EngineG.emit_due (s : EngineG) (p : String) (t interval : ℚ) : Bool :=
  match dlookup s.last_snapshot_time p with
  | none => true
  | some lt => decide (t - lt ≥ interval)

/-- Closing a pending snapshot batch from the GPU snapshot branch (lines
303-320): apply the batch, clear the buffer, and always attempt an emission;
`get_snapshot_features` also re-seeds the EMA on success, so the mutated
book is stored back. -/
def EngineG.close_batch_emit (tk : TickerLookup) (s : EngineG) : EngineG :=
  match s.snapshot_events, s.current_product, s.current_timestamp with
  | [], _, _ => s
  | _, none, _ => s
  | _, _, none => s
  | es, some p, some t =>
    let b := (s.get_book p).apply_snapshot es
    let pr := b.get_snapshot_features
    let s1 := { s.set_book p pr.2 with snapshot_events := [] }
    match pr.1 with
    | none => s1
    | some f =>
      { s1 with
        snapshots := s1.snapshots ++ [{ timestamp := t, product_id := p, feats := f,
                                        ticker_data := tickerExact tk t p }],
        snapshot_count := s1.snapshot_count + 1,
        last_snapshot_time := dinsert s1.last_snapshot_time p t }

/-- Flushing a pending batch from the GPU update branch (lines 332-335):
apply the batch and clear the buffer. Unlike the basic builder, the GPU
driver does not reset the batch key here. -/
def EngineG.flush_batch_silent (s : EngineG) : EngineG :=
  match s.snapshot_events, s.current_product with
  | [], _ => s
  | _, none => s
  | es, some p =>
    { s.set_book p ((s.get_book p).apply_snapshot es) with snapshot_events := [] }

/-- The snapshot-kind branch of the GPU builder loop. -/
def EngineG.snapshot_branch (tk : TickerLookup) (s : EngineG) (e : Event) : EngineG :=
  let s1 :=
    if s.current_timestamp = some e.timestamp ∧ s.current_product = some e.product_id then s
    else
      { s.close_batch_emit tk with
        current_timestamp := some e.timestamp, current_product := some e.product_id }
  { s1 with
    snapshot_events := s1.snapshot_events ++ [{ side := e.side, price_level := e.price_level,
                                                new_quantity := e.new_quantity }] }

/-- The update-kind branch of the GPU builder loop (lines 331-381): flush any
pending batch, then check the EMA outlier test on the incoming price BEFORE
applying — an outlier bumps `outliers_filtered` and skips the event entirely.
Otherwise apply the update and, when the interval test passes, attempt an
emission with the tolerant ticker lookup (storing the EMA-mutated book). -/
def EngineG.update_branch (tk : TickerLookup) (interval : ℚ) (s : EngineG) (e : Event) :
    EngineG :=
  let s1 := s.flush_batch_silent
  let b := s1.get_book e.product_id
  if b.is_outlier e.price_level then
    { s1 with outliers_filtered := s1.outliers_filtered + 1 }
  else
    let b1 := b.apply_update e.side e.price_level e.new_quantity
    let s2 := s1.set_book e.product_id b1
    if s2.emit_due e.product_id e.timestamp interval then
      let pr := b1.get_snapshot_features
      let s3 := s2.set_book e.product_id pr.2
      match pr.1 with
      | none => { s3 with crossed_book_count := s3.crossed_book_count + 1 }
      | some f =>
        { s3 with
          snapshots := s3.snapshots ++ [{ timestamp := e.timestamp,
                                          product_id := e.product_id, feats := f,
                                          ticker_data := tickerSearch tk e.timestamp e.product_id }],
          snapshot_count := s3.snapshot_count + 1,
          last_snapshot_time := dinsert s3.last_snapshot_time e.product_id e.timestamp }
    else s2

/-- One iteration of the GPU builder loop. -/
def EngineG.step (tk : TickerLookup) (interval : ℚ) (s : EngineG) (e : Event) : EngineG :=
  let s0 := s.ensure_book e.product_id
  if e.event_type = "snapshot" then s0.snapshot_branch tk e
  else if e.event_type = "update" then EngineG.update_branch tk interval s0 e
  else s0

/-- `OrderBookSnapshotBuilderGPU.build_snapshots` on a decoded event list:
fold the loop over the events. The GPU builder has NO end-of-input flush —
after the loop it directly converts the collected rows and writes them out
(lines 382-398), so a still-open batch is dropped. -/
def gpu_build_snapshots (tk : TickerLookup) (interval : ℚ) (events : List Event) :
    EngineG :=
  events.foldl (EngineG.step tk interval) EngineG.init

/-! ### Generic lemmas about the dict model -/

theorem dlookup_dinsert_self {κ α : Type} [DecidableEq κ] (m : List (κ × α)) (k : κ)
    (v : α) : dlookup (dinsert m k v) k = some v := by
  induction m with
  | nil => simp [dinsert, dlookup]
  | cons kv rest ih =>
    by_cases h : kv.1 = k
    · simp [dinsert, dlookup, h]
    · simp [dinsert, dlookup, h, ih]

theorem dlookup_dinsert_ne {κ α : Type} [DecidableEq κ] (m : List (κ × α)) (k k2 : κ)
    (v : α) (h : k ≠ k2) : dlookup (dinsert m k v) k2 = dlookup m k2 := by
  induction m with
  | nil => simp [dinsert, dlookup, h]
  | cons kv rest ih =>
    by_cases hk : kv.1 = k
    · simp [dinsert, dlookup, hk, h]
    · simp [dinsert, dlookup, hk, ih]

theorem mem_dinsert {κ α : Type} [DecidableEq κ] {x : κ × α} {m : List (κ × α)}
    {k : κ} {v : α} (h : x ∈ dinsert m k v) : x = (k, v) ∨ x ∈ m := by
  induction m with
  | nil => simpa [dinsert] using h
  | cons kv rest ih =>
    by_cases hk : kv.1 = k
    · simp only [dinsert, if_pos hk] at h
      rcases List.mem_cons.mp h with h1 | h2
      · exact Or.inl h1
      · exact Or.inr (List.mem_cons_of_mem kv h2)
    · simp only [dinsert, if_neg hk] at h
      rcases List.mem_cons.mp h with h1 | h2
      · exact Or.inr (h1 ▸ List.mem_cons_self kv rest)
      · rcases ih h2 with h3 | h3
        · exact Or.inl h3
        · exact Or.inr (List.mem_cons_of_mem kv h3)

theorem mem_dpop {κ α : Type} [DecidableEq κ] {x : κ × α} {m : List (κ × α)} {k : κ}
    (h : x ∈ dpop m k) : x ∈ m :=
  List.mem_of_mem_filter h

/-! ### The ladder zero-freeness predicate -/

/-- No price key of the ladder maps to quantity 0. -/
def zeroFree (m : List (ℚ × ℚ)) : Prop := ∀ kv ∈ m, kv.2 ≠ 0

instance zeroFreeDec (m : List (ℚ × ℚ)) : Decidable (zeroFree m) :=
  inferInstanceAs (Decidable (∀ kv ∈ m, kv.2 ≠ 0))

theorem zeroFree_dinsert {m : List (ℚ × ℚ)} {k v : ℚ} (hm : zeroFree m) (hv : v ≠ 0) :
    zeroFree (dinsert m k v) := by
  intro kv hkv
  rcases mem_dinsert hkv with h | h
  · rw [h]; exact hv
  · exact hm kv h

theorem zeroFree_dpop {m : List (ℚ × ℚ)} {k : ℚ} (hm : zeroFree m) :
    zeroFree (dpop m k) := fun kv hkv => hm kv (mem_dpop hkv)

/-! ### Head of the sorted ladders -/

theorem headD_take_cons {α : Type} (a : α) (t : List α) (d : α) :
    ((a :: t).take 10).headD d = a := rfl

theorem sortDesc_head (l : List (ℚ × ℚ)) (hl : l ≠ []) :
    ∃ hd tl, List.insertionSort bidOrd l = hd :: tl ∧ hd ∈ l ∧ ∀ x ∈ l, x.1 ≤ hd.1 := by
  have hp := List.perm_insertionSort bidOrd l
  have hs := List.sorted_insertionSort bidOrd l
  cases hq : List.insertionSort bidOrd l with
  | nil =>
    rw [hq] at hp
    exact absurd hp.symm.eq_nil hl
  | cons hd tl =>
    rw [hq] at hp hs
    refine ⟨hd, tl, rfl, hp.mem_iff.mp (List.mem_cons_self hd tl), ?_⟩
    intro x hx
    rcases List.mem_cons.mp (hp.mem_iff.mpr hx) with h | h
    · exact le_of_eq (congrArg Prod.fst h)
    · rcases List.rel_of_sorted_cons hs x h with h2 | ⟨h2, _⟩
      · exact le_of_lt h2
      · exact le_of_eq h2

theorem sortAsc_head (l : List (ℚ × ℚ)) (hl : l ≠ []) :
    ∃ hd tl, List.insertionSort askOrd l = hd :: tl ∧ hd ∈ l ∧ ∀ x ∈ l, hd.1 ≤ x.1 := by
  have hp := List.perm_insertionSort askOrd l
  have hs := List.sorted_insertionSort askOrd l
  cases hq : List.insertionSort askOrd l with
  | nil =>
    rw [hq] at hp
    exact absurd hp.symm.eq_nil hl
  | cons hd tl =>
    rw [hq] at hp hs
    refine ⟨hd, tl, rfl, hp.mem_iff.mp (List.mem_cons_self hd tl), ?_⟩
    intro x hx
    rcases List.mem_cons.mp (hp.mem_iff.mpr hx) with h | h
    · exact le_of_eq (congrArg Prod.fst h).symm
    · rcases List.rel_of_sorted_cons hs x h with h2 | ⟨h2, _⟩
      · exact le_of_lt h2
      · exact le_of_eq h2

/-! ### Characterization of feature availability -/

theorem features_isSome_iff (b : OrderBook) :
    b.get_snapshot_features.isSome ↔
      (b.bids ≠ [] ∧ b.asks ≠ [] ∧ ∀ x ∈ b.bids, ∀ y ∈ b.asks, x.1 < y.1) := by
  rcases hbids : b.bids with _ | ⟨pb, bs⟩
  · simp [OrderBook.get_snapshot_features, hbids]
  rcases hasks : b.asks with _ | ⟨pa, asx⟩
  · simp [OrderBook.get_snapshot_features, hbids, hasks]
  obtain ⟨hdB, tlB, hqB, hmemB, hmaxB⟩ := sortDesc_head (pb :: bs) (List.cons_ne_nil pb bs)
  obtain ⟨hdA, tlA, hqA, hminAmem, hminA⟩ := sortAsc_head (pa :: asx) (List.cons_ne_nil pa asx)
  simp only [OrderBook.get_snapshot_features, hbids, hasks, List.isEmpty_cons,
    Bool.or_self, Bool.false_eq_true, if_false, hqB, hqA, headD_take_cons]
  by_cases hcross : hdB.1 ≥ hdA.1
  · rw [if_pos hcross]
    simp only [Option.isSome_none, Bool.false_eq_true, false_iff]
    intro hcontra
    exact absurd (hcontra.2.2 hdB hmemB hdA hminAmem) (not_lt.mpr hcross)
  · rw [if_neg hcross]
    simp only [Option.isSome_some, true_iff]
    refine ⟨List.cons_ne_nil pb bs, List.cons_ne_nil pa asx, ?_⟩
    intro x hx y hy
    exact lt_of_le_of_lt (hmaxB x hx) (lt_of_lt_of_le (not_le.mp hcross) (hminA y hy))

theorem features_best_prices (b : OrderBook) (f : Features)
    (h : b.get_snapshot_features = some f) :
    (f.best_bid ∈ b.bids.map Prod.fst ∧ ∀ x ∈ b.bids, x.1 ≤ f.best_bid)
    ∧ (f.best_ask ∈ b.asks.map Prod.fst ∧ ∀ y ∈ b.asks, f.best_ask ≤ y.1) := by
  rcases hbids : b.bids with _ | ⟨pb, bs⟩
  · rw [OrderBook.get_snapshot_features, hbids] at h
    simp at h
  rcases hasks : b.asks with _ | ⟨pa, asx⟩
  · rw [OrderBook.get_snapshot_features, hbids, hasks] at h
    simp at h
  obtain ⟨hdB, tlB, hqB, hmemB, hmaxB⟩ := sortDesc_head (pb :: bs) (List.cons_ne_nil pb bs)
  obtain ⟨hdA, tlA, hqA, hmemA, hminA⟩ := sortAsc_head (pa :: asx) (List.cons_ne_nil pa asx)
  rw [OrderBook.get_snapshot_features, hbids, hasks] at h
  simp only [List.isEmpty_cons, Bool.or_self, Bool.false_eq_true, if_false, hqB, hqA,
    headD_take_cons] at h
  by_cases hcross : hdB.1 ≥ hdA.1
  · rw [if_pos hcross] at h
    exact absurd h (by simp)
  · rw [if_neg hcross] at h
    have hf := (Option.some_inj.mp h).symm
    have hbb : f.best_bid = hdB.1 := by rw [hf]
    have hba : f.best_ask = hdA.1 := by rw [hf]
    refine ⟨⟨?_, ?_⟩, ?_, ?_⟩
    · rw [hbb]; exact List.mem_map_of_mem Prod.fst hmemB
    · intro x hx; rw [hbb]; exact hmaxB x hx
    · rw [hba]; exact List.mem_map_of_mem Prod.fst hmemA
    · intro y hy; rw [hba]; exact hminA y hy

theorem gpu_features_isSome_iff (g : OrderBookGPU) :
    g.get_snapshot_features.1.isSome ↔
      (g.bids ≠ [] ∧ g.asks ≠ [] ∧ ∀ x ∈ g.bids, ∀ y ∈ g.asks, x.1 < y.1) := by
  rcases hbids : g.bids with _ | ⟨pb, bs⟩
  · simp [OrderBookGPU.get_snapshot_features, hbids]
  rcases hasks : g.asks with _ | ⟨pa, asx⟩
  · simp [OrderBookGPU.get_snapshot_features, hbids, hasks]
  obtain ⟨hdB, tlB, hqB, hmemB, hmaxB⟩ := sortDesc_head (pb :: bs) (List.cons_ne_nil pb bs)
  obtain ⟨hdA, tlA, hqA, hminAmem, hminA⟩ := sortAsc_head (pa :: asx) (List.cons_ne_nil pa asx)
  simp only [OrderBookGPU.get_snapshot_features, hbids, hasks, List.isEmpty_cons,
    Bool.or_self, Bool.false_eq_true, if_false, hqB, hqA, headD_take_cons]
  by_cases hcross : hdB.1 ≥ hdA.1
  · rw [if_pos hcross]
    simp only [Option.isSome_none, Bool.false_eq_true, false_iff]
    intro hcontra
    exact absurd (hcontra.2.2 hdB hmemB hdA hminAmem) (not_lt.mpr hcross)
  · rw [if_neg hcross]
    simp only [Option.isSome_some, true_iff]
    refine ⟨List.cons_ne_nil pb bs, List.cons_ne_nil pa asx, ?_⟩
    intro x hx y hy
    exact lt_of_le_of_lt (hmaxB x hx) (lt_of_lt_of_le (not_le.mp hcross) (hminA y hy))

/-! ### Structural lemmas about the basic driver -/

theorem get_book_set_book (s : Engine) (p : String) (b : OrderBook) :
    (s.set_book p b).get_book p = b := by
  unfold Engine.get_book Engine.set_book
  simp [dlookup_dinsert_self]

theorem ensure_book_frame (s : Engine) (p : String) :
    (s.ensure_book p).last_snapshot_time = s.last_snapshot_time
    ∧ (s.ensure_book p).snapshots = s.snapshots
    ∧ (s.ensure_book p).snapshot_events = s.snapshot_events
    ∧ (s.ensure_book p).current_product = s.current_product
    ∧ (s.ensure_book p).current_timestamp = s.current_timestamp := by
  unfold Engine.ensure_book
  cases hd : dlookup s.orderbooks p <;> simp

theorem flush_silent_frame (s : Engine) :
    s.flush_batch_silent.last_snapshot_time = s.last_snapshot_time
    ∧ s.flush_batch_silent.snapshots = s.snapshots := by
  unfold Engine.flush_batch_silent
  split
  · exact ⟨rfl, rfl⟩
  · exact ⟨rfl, rfl⟩
  · exact ⟨rfl, rfl⟩

theorem close_emit_shape (tk : TickerLookup) (s : Engine) :
    ((s.close_batch_emit tk).last_snapshot_time = s.last_snapshot_time
      ∧ (s.close_batch_emit tk).snapshots = s.snapshots)
    ∨ (s.close_batch_emit tk).snapshots.length = s.snapshots.length + 1 := by
  unfold Engine.close_batch_emit
  split
  · exact Or.inl ⟨rfl, rfl⟩
  · exact Or.inl ⟨rfl, rfl⟩
  · exact Or.inl ⟨rfl, rfl⟩
  · dsimp only
    split
    · exact Or.inl ⟨rfl, rfl⟩
    · exact Or.inr (by simp [Engine.set_book])

theorem snapshot_branch_shape (tk : TickerLookup) (s : Engine) (e : Event) :
    ((s.snapshot_branch tk e).last_snapshot_time = s.last_snapshot_time
      ∧ (s.snapshot_branch tk e).snapshots = s.snapshots)
    ∨ (s.snapshot_branch tk e).snapshots.length = s.snapshots.length + 1 := by
  unfold Engine.snapshot_branch
  dsimp only
  split
  · exact Or.inl ⟨rfl, rfl⟩
  · rcases close_emit_shape tk s with ⟨h1, h2⟩ | h
    · exact Or.inl ⟨h1, h2⟩
    · exact Or.inr h

theorem update_branch_shape (tk : TickerLookup) (iv : ℚ) (s : Engine) (e : Event) :
    ((Engine.update_branch tk iv s e).last_snapshot_time = s.last_snapshot_time
      ∧ (Engine.update_branch tk iv s e).snapshots = s.snapshots)
    ∨ (Engine.update_branch tk iv s e).snapshots.length = s.snapshots.length + 1 := by
  unfold Engine.update_branch
  dsimp only
  split
  · split
    · exact Or.inl ⟨(flush_silent_frame s).1, (flush_silent_frame s).2⟩
    · refine Or.inr ?_
      simp [Engine.set_book, (flush_silent_frame s).2]
  · exact Or.inl ⟨(flush_silent_frame s).1, (flush_silent_frame s).2⟩

theorem step_shape (tk : TickerLookup) (iv : ℚ) (s : Engine) (e : Event) :
    ((Engine.step tk iv s e).last_snapshot_time = s.last_snapshot_time
      ∧ (Engine.step tk iv s e).snapshots = s.snapshots)
    ∨ (Engine.step tk iv s e).snapshots.length = s.snapshots.length + 1 := by
  unfold Engine.step
  dsimp only
  have hf := ensure_book_frame s e.product_id
  split
  · rcases snapshot_branch_shape tk (s.ensure_book e.product_id) e with ⟨h1, h2⟩ | h
    · exact Or.inl ⟨h1.trans hf.1, h2.trans hf.2.1⟩
    · rw [hf.2.1] at h
      exact Or.inr h
  · split
    · rcases update_branch_shape tk iv (s.ensure_book e.product_id) e with ⟨h1, h2⟩ | h
      · exact Or.inl ⟨h1.trans hf.1, h2.trans hf.2.1⟩
      · rw [hf.2.1] at h
        exact Or.inr h
    · exact Or.inl ⟨hf.1, hf.2.1⟩

theorem step_update_eq (tk : TickerLookup) (iv : ℚ) (s : Engine) (e : Event)
    (hup : e.event_type = "update") :
    Engine.step tk iv s e = Engine.update_branch tk iv (s.ensure_book e.product_id) e := by
  unfold Engine.step
  rw [hup, if_neg (by decide), if_pos rfl]

theorem step_snapshot_eq (tk : TickerLookup) (iv : ℚ) (s : Engine) (e : Event)
    (hsnap : e.event_type = "snapshot") :
    Engine.step tk iv s e = (s.ensure_book e.product_id).snapshot_branch tk e := by
  unfold Engine.step
  rw [hsnap, if_pos rfl]

theorem flush_silent_buffer (s : Engine) (p : String) (hne : s.snapshot_events ≠ [])
    (hp : s.current_product = some p) :
    s.flush_batch_silent.snapshot_events = [] := by
  rcases hse : s.snapshot_events with _ | ⟨e0, es⟩
  · exact absurd hse hne
  · unfold Engine.flush_batch_silent
    rw [hse, hp]

theorem flush_silent_get_book (s : Engine) (p : String) (hne : s.snapshot_events ≠ [])
    (hp : s.current_product = some p) :
    s.flush_batch_silent.get_book p = (s.get_book p).apply_snapshot s.snapshot_events := by
  rcases hse : s.snapshot_events with _ | ⟨e0, es⟩
  · exact absurd hse hne
  · unfold Engine.flush_batch_silent
    rw [hse, hp]
    exact get_book_set_book s p ((s.get_book p).apply_snapshot (e0 :: es))

theorem update_branch_get_book (tk : TickerLookup) (iv : ℚ) (s : Engine) (e : Event) :
    (Engine.update_branch tk iv s e).get_book e.product_id
      = (s.flush_batch_silent.get_book e.product_id).apply_update e.side e.price_level
          e.new_quantity true none := by
  unfold Engine.update_branch
  dsimp only
  split
  · split
    · exact get_book_set_book _ _ _
    · exact get_book_set_book _ _ _
  · exact get_book_set_book _ _ _

theorem apply_update_none_eq_core (b : OrderBook) (side : String) (price q : ℚ) :
    b.apply_update side price q true none = b.apply_update_core side price q := rfl

theorem close_emit_rows (tk : TickerLookup) (s : Engine) :
    ∃ r : List Row, ∀ L : List (String × ℚ),
      ({ s with last_snapshot_time := L }.close_batch_emit tk).snapshots
        = s.snapshots ++ r := by
  rcases hse : s.snapshot_events with _ | ⟨e0, es⟩
  · exact ⟨[], fun L => by simp [Engine.close_batch_emit]⟩
  rcases hcp : s.current_product with _ | p
  · exact ⟨[], fun L => by simp [Engine.close_batch_emit]⟩
  rcases hct : s.current_timestamp with _ | t
  · exact ⟨[], fun L => by simp [Engine.close_batch_emit]⟩
  cases hf : ((s.get_book p).apply_snapshot (e0 :: es)).get_snapshot_features with
  | none =>
    refine ⟨[], fun L => ?_⟩
    simp only [Engine.close_batch_emit, Engine.get_book, Engine.set_book] at hf ⊢
    simp [hf]
  | some f =>
    refine ⟨[{ timestamp := t, product_id := p, feats := f,
               ticker_data := tickerExact tk t p }], fun L => ?_⟩
    simp only [Engine.close_batch_emit, Engine.get_book, Engine.set_book] at hf ⊢
    simp [hf]

theorem snapshot_branch_rows (tk : TickerLookup) (s : Engine) (e : Event) :
    ∃ r : List Row, ∀ L : List (String × ℚ),
      ({ s with last_snapshot_time := L }.snapshot_branch tk e).snapshots
        = s.snapshots ++ r := by
  by_cases hkey : (s.current_timestamp = some e.timestamp
      ∧ s.current_product = some e.product_id)
  · refine ⟨[], fun L => ?_⟩
    unfold Engine.snapshot_branch
    dsimp only
    rw [if_pos hkey]
    simp
  · obtain ⟨r, hr⟩ := close_emit_rows tk s
    refine ⟨r, fun L => ?_⟩
    unfold Engine.snapshot_branch
    dsimp only
    rw [if_neg hkey]
    exact hr L

theorem ensure_book_last_comm (s : Engine) (p : String) (L : List (String × ℚ)) :
    ({ s with last_snapshot_time := L } : Engine).ensure_book p
      = { s.ensure_book p with last_snapshot_time := L } := by
  unfold Engine.ensure_book
  dsimp only
  cases hd : dlookup s.orderbooks p <;> simp [hd]

theorem step_snapshot_rows_indep (tk : TickerLookup) (s : Engine) (e : Event)
    (hsnap : e.event_type = "snapshot") (iv1 iv2 : ℚ) (L1 L2 : List (String × ℚ)) :
    (Engine.step tk iv1 { s with last_snapshot_time := L1 } e).snapshots.drop
        s.snapshots.length
      = (Engine.step tk iv2 { s with last_snapshot_time := L2 } e).snapshots.drop
        s.snapshots.length := by
  obtain ⟨r, hr⟩ := snapshot_branch_rows tk (s.ensure_book e.product_id) e
  have key : ∀ (iv : ℚ) (L : List (String × ℚ)),
      (Engine.step tk iv { s with last_snapshot_time := L } e).snapshots
        = s.snapshots ++ r := by
    intro iv L
    rw [step_snapshot_eq tk iv _ e hsnap, ensure_book_last_comm, hr L,
      (ensure_book_frame s e.product_id).2.1]
  rw [key iv1 L1, key iv2 L2]

/-! ### Structural lemmas about the GPU driver -/

theorem gpu_ensure_of_mem (s : EngineG) (p : String) (b : OrderBookGPU)
    (hb : dlookup s.orderbooks p = some b) : s.ensure_book p = s := by
  unfold EngineG.ensure_book
  rw [hb]

theorem gpu_flush_empty (s : EngineG) (hbuf : s.snapshot_events = []) :
    s.flush_batch_silent = s := by
  unfold EngineG.flush_batch_silent
  rw [hbuf]
  cases s.current_product <;> rfl

theorem gpu_step_outlier (tk : TickerLookup) (iv : ℚ) (s : EngineG) (e : Event)
    (hup : e.event_type = "update") (hbuf : s.snapshot_events = [])
    (hout : (s.get_book e.product_id).is_outlier e.price_level = true) :
    EngineG.step tk iv s e = { s with outliers_filtered := s.outliers_filtered + 1 } := by
  rcases hd : dlookup s.orderbooks e.product_id with _ | b
  · exfalso
    have hgb : s.get_book e.product_id
        = { product_id := e.product_id, bids := [], asks := [], ema_mid := none } := by
      unfold EngineG.get_book
      rw [hd]
      rfl
    rw [hgb] at hout
    exact absurd hout (by simp [OrderBookGPU.is_outlier])
  · have hens : s.ensure_book e.product_id = s := gpu_ensure_of_mem s e.product_id b hd
    unfold EngineG.step
    dsimp only
    rw [hup, if_neg (by decide), if_pos rfl, hens]
    unfold EngineG.update_branch
    dsimp only
    rw [gpu_flush_empty s hbuf, if_pos hout]

theorem update_branch_emits_iff (tk : TickerLookup) (iv : ℚ) (s : Engine) (e : Event)
    (hdue : s.emit_due e.product_id e.timestamp iv = true) :
    (Engine.update_branch tk iv s e).snapshots.length = s.snapshots.length + 1
      ↔ ((s.flush_batch_silent.get_book e.product_id).apply_update e.side e.price_level
          e.new_quantity true none).get_snapshot_features.isSome := by
  unfold Engine.update_branch
  dsimp only
  have hdue2 : (s.flush_batch_silent.set_book e.product_id
      ((s.flush_batch_silent.get_book e.product_id).apply_update e.side e.price_level
        e.new_quantity true none)).emit_due e.product_id e.timestamp iv = true := by
    have hlast : (s.flush_batch_silent.set_book e.product_id
        ((s.flush_batch_silent.get_book e.product_id).apply_update e.side e.price_level
          e.new_quantity true none)).last_snapshot_time = s.last_snapshot_time :=
      (flush_silent_frame s).1
    unfold Engine.emit_due at hdue ⊢
    rw [hlast]
    exact hdue
  rw [if_pos hdue2]
  cases hf : ((s.flush_batch_silent.get_book e.product_id).apply_update e.side e.price_level
      e.new_quantity true none).get_snapshot_features with
  | none => simp [hf, Engine.set_book, (flush_silent_frame s).2]
  | some f => simp [hf, Engine.set_book, (flush_silent_frame s).2]

/-! ### Concrete inputs used by the claim theorems and witnesses -/

/-- The single instrument used in the concrete runs. -/
def pX : String := "X"

/-- The bid side string of the data. -/
def sideBid : String := "bid"

/-- An unknown side value (anything other than bid is treated as offer). -/
def sideZZ : String := "zzz"

/-- A snapshot-kind event for instrument `pX`. -/
def sevt (t : ℚ) (sd : String) (pr q : ℚ) : Event :=
  { timestamp := t, event_type := "snapshot", product_id := pX, side := sd,
    price_level := pr, new_quantity := q }

/-- An update-kind event for instrument `pX`. -/
def uevt (t : ℚ) (sd : String) (pr q : ℚ) : Event :=
  { timestamp := t, event_type := "update", product_id := pX, side := sd,
    price_level := pr, new_quantity := q }

/-- An empty book for instrument `pX`. -/
def bookX : OrderBook := { product_id := pX, bids := [], asks := [] }

/-- A healthy two-sided book: bid 100, ask 101, both quantity 1. -/
def bW : OrderBook := { product_id := pX, bids := [(100, 1)], asks := [(101, 1)] }

/-- The features of `bW`. -/
def fW : Features := { best_bid := 100, best_ask := 101, bid_volume_10 := 1, ask_volume_10 := 1 }

/-- A healthy two-sided GPU book with the EMA seeded at 100. -/
def gW : OrderBookGPU :=
  { product_id := pX, bids := [(100, 1)], asks := [(101, 1)], ema_mid := some 100 }

/-- A stream whose snapshot batch (bid 100, ask 101 at t=0) is closed by an
update at t=0 that removes the only bid: the update-path closure applies the
batch silently, the post-update book is one-sided, so nothing is emitted. -/
def c2Stream : List Event :=
  [sevt 0 "bid" 100 1, sevt 0 "offer" 101 1, uevt 0 "bid" 100 0]

/-- The batch buffered by `c2Stream` before the update arrives. -/
def c2Batch : List SnapEntry := [⟨"bid", 100, 1⟩, ⟨"offer", 101, 1⟩]

/-- A driver state holding an open one-entry batch for `pX`. -/
def c2WState : Engine :=
  { orderbooks := [(pX, bookX)], last_snapshot_time := [], current_timestamp := some 0,
    current_product := some pX, snapshot_events := [⟨"bid", 100, 1⟩], snapshots := [],
    snapshot_count := 0, crossed_book_count := 0 }

/-- An update event arriving while `c2WState` is accumulating. -/
def c2WEvent : Event := uevt 0 "bid" 100 2

/-- A snapshot batch containing a zero-quantity bid entry. -/
def c3Batch : List SnapEntry := [⟨"bid", 100, 0⟩, ⟨"offer", 101, 1⟩]

/-- A GPU driver state holding `gW` with an empty batch buffer. -/
def c4WState : EngineG :=
  { orderbooks := [(pX, gW)], last_snapshot_time := [], current_timestamp := none,
    current_product := none, snapshot_events := [], snapshots := [],
    snapshot_count := 0, crossed_book_count := 0, outliers_filtered := 0 }

/-- An update at price 500 — an outlier against `gW`'s EMA mid of 100. -/
def c4WEvent : Event := uevt 0 "bid" 500 1

/-- A stream that ends while a healthy snapshot batch is still open. -/
def c5Stream : List Event := [sevt 0 "bid" 100 1, sevt 0 "offer" 101 1]

/-- A snapshot batch at t=0 followed by one valid update at each of
t = 0, 1, ..., 20 seconds that keeps the book two-sided and uncrossed. -/
def c6Stream : List Event :=
  [sevt 0 "bid" 100 1, sevt 0 "offer" 101 1]
  ++ (List.range 21).map (fun k => uevt (k : ℚ) "bid" 100 1)

/-- A driver state holding the healthy book `bW` with `last_snapshot_time` unset. -/
def s6w : Engine :=
  { orderbooks := [(pX, bW)], last_snapshot_time := [], current_timestamp := none,
    current_product := none, snapshot_events := [], snapshots := [],
    snapshot_count := 0, crossed_book_count := 0 }

/-- A valid update event at t=0. -/
def e6w : Event := uevt 0 "bid" 100 1

/-- Batches at t=0 and t=5, each closed by a later differing snapshot event:
the t=5 closure emits although only 5 seconds have passed since the t=0
emission. -/
def c7GoodStream : List Event :=
  [sevt 0 "bid" 100 1, sevt 0 "offer" 101 1, sevt 5 "bid" 100 1, sevt 5 "offer" 101 1,
   sevt 50 "bid" 100 1]

/-- Batches at t=0 and t=5, the second closed by an update at t=6 inside the
interval: the t=5 batch is applied without any emission attempt. -/
def c7BadStream : List Event :=
  [sevt 0 "bid" 100 1, sevt 0 "offer" 101 1, sevt 5 "bid" 100 1, sevt 5 "offer" 101 1,
   uevt 6 "bid" 100 2]

/-- The healthy batch buffered at t=5 in `c7BadStream`. -/
def c7Batch2 : List SnapEntry := [⟨"bid", 100, 1⟩, ⟨"offer", 101, 1⟩]

/-- Concrete ticker fields. -/
def tkInfoW : TickerInfo :=
  { ticker_price := 7, ticker_volume_24h := 8, ticker_low_24h := 9,
    ticker_high_24h := 10, ticker_price_change_24h_pct := 11 }

/-- A ticker table with a single entry at t=100 for `pX`. -/
def c8Ticker : TickerLookup := [{ timestamp := 100, product_id := pX, fields := tkInfoW }]

/-- A batch at t=90 closed by an update at t=103: the update-path emission at
t=103 finds the t=100 ticker through the tolerance scan. -/
def c8Stream : List Event :=
  [sevt 90 "bid" 100 1, sevt 90 "offer" 101 1, uevt 103 "bid" 100 2]

/-- A batch at t=103 closed by a differing snapshot event at t=200: the
batch-closure emission at t=103 uses exact lookup only and misses the t=100
ticker. -/
def c8BadStream : List Event :=
  [sevt 103 "bid" 100 1, sevt 103 "offer" 101 1, sevt 200 "bid" 50 1]

/-! ### Remaining helper lemmas -/

theorem apply_update_core_zeroFree (b : OrderBook) (side : String) (price q : ℚ)
    (hb : zeroFree b.bids) (ha : zeroFree b.asks) :
    zeroFree (b.apply_update_core side price q).bids
    ∧ zeroFree (b.apply_update_core side price q).asks := by
  unfold OrderBook.apply_update_core
  by_cases hs : side = "bid"
  · rw [if_pos hs]
    by_cases hq : q = 0
    · rw [if_pos hq]
      exact ⟨zeroFree_dpop hb, ha⟩
    · rw [if_neg hq]
      exact ⟨zeroFree_dinsert hb hq, ha⟩
  · rw [if_neg hs]
    by_cases hq : q = 0
    · rw [if_pos hq]
      exact ⟨hb, zeroFree_dpop ha⟩
    · rw [if_neg hq]
      exact ⟨hb, zeroFree_dinsert ha hq⟩

theorem deltaScan_isSome (tk : TickerLookup) (t : ℚ) (p : String) (ds : List ℚ) :
    (tickerDeltaScan tk t p ds).isSome ↔
      ∃ d ∈ ds, ((tickerExact tk (t + d) p).isSome ∨ (tickerExact tk (t - d) p).isSome) := by
  induction ds with
  | nil => simp [tickerDeltaScan]
  | cons d rest ih =>
    unfold tickerDeltaScan
    cases h1 : tickerExact tk (t + d) p with
    | some x => simp [h1]
    | none =>
      cases h2 : tickerExact tk (t - d) p with
      | some x => simp [h1, h2]
      | none => simp [h1, h2, ih]

/-- On a state with a set batch key and a truthy product, the end-of-input
flush emits exactly the rows that the in-loop batch closure would emit. -/
theorem flush_matches_close (tk : TickerLookup) (s : Engine) (p : String) (t : ℚ)
    (hp : s.current_product = some p) (ht : s.current_timestamp = some t)
    (hne : p ≠ "") :
    (Engine.final_flush tk s).snapshots = (s.close_batch_emit tk).snapshots := by
  rcases hse : s.snapshot_events with _ | ⟨e0, es⟩
  · unfold Engine.final_flush Engine.close_batch_emit
    rw [hse, hp, ht]
  · unfold Engine.final_flush Engine.close_batch_emit
    rw [hse, hp, ht]
    dsimp only
    rw [if_neg hne]
    cases hf : ((s.get_book p).apply_snapshot (e0 :: es)).get_snapshot_features with
    | none => simp [hf, Engine.set_book]
    | some f => simp [hf, Engine.set_book]

/-! ### The claims -/

/-- Claim C1: at every attempted snapshot emission a record is produced if
and only if, at feature-computation time, both the bids and asks mappings
are non-empty and the best bid is strictly below the best ask (equivalently:
every bid price is below every ask price) — so no snapshot is ever emitted
for a crossed or one-sided book. This holds for both builder variants; on
success the emitted best bid is the maximum bid price and the best ask the
minimum ask price, and at a due update-path attempt the driver appends a row
exactly when the post-update book satisfies these conditions. -/
theorem claim_C1 (b : OrderBook) (g : OrderBookGPU) :
    (b.get_snapshot_features.isSome ↔
      (b.bids ≠ [] ∧ b.asks ≠ [] ∧ ∀ x ∈ b.bids, ∀ y ∈ b.asks, x.1 < y.1))
    ∧ (g.get_snapshot_features.1.isSome ↔
      (g.bids ≠ [] ∧ g.asks ≠ [] ∧ ∀ x ∈ g.bids, ∀ y ∈ g.asks, x.1 < y.1))
    ∧ (∀ f : Features, b.get_snapshot_features = some f →
        (f.best_bid ∈ b.bids.map Prod.fst ∧ ∀ x ∈ b.bids, x.1 ≤ f.best_bid)
        ∧ (f.best_ask ∈ b.asks.map Prod.fst ∧ ∀ y ∈ b.asks, f.best_ask ≤ y.1))
    ∧ (∀ (tk : TickerLookup) (iv : ℚ) (s : Engine) (e : Event),
        s.emit_due e.product_id e.timestamp iv = true →
        ((Engine.update_branch tk iv s e).snapshots.length = s.snapshots.length + 1 ↔
          ((s.flush_batch_silent.get_book e.product_id).apply_update e.side e.price_level
              e.new_quantity true none).get_snapshot_features.isSome)) :=
  ⟨features_isSome_iff b, gpu_features_isSome_iff g,
   fun f h => features_best_prices b f h,
   fun tk iv s e h => update_branch_emits_iff tk iv s e h⟩

/-- Witness for C1 at the concrete healthy book `bW`, the GPU book `gW`, and
a due update attempt from the initial driver state. -/
theorem claim_C1_witness :
    (bW.get_snapshot_features = some fW ∧ Engine.init.emit_due pX 0 10 = true)
    ∧ ((fW.best_bid ∈ bW.bids.map Prod.fst ∧ ∀ x ∈ bW.bids, x.1 ≤ fW.best_bid)
        ∧ (fW.best_ask ∈ bW.asks.map Prod.fst ∧ ∀ y ∈ bW.asks, fW.best_ask ≤ y.1))
    ∧ ((Engine.update_branch [] 10 Engine.init e6w).snapshots.length
          = Engine.init.snapshots.length + 1 ↔
        ((Engine.init.flush_batch_silent.get_book e6w.product_id).apply_update e6w.side
            e6w.price_level e6w.new_quantity true none).get_snapshot_features.isSome) :=
  ⟨⟨of_decide_eq_true (by with_unfolding_all rfl), rfl⟩,
   (claim_C1 bW gW).2.2.1 fW (of_decide_eq_true (by with_unfolding_all rfl)),
   (claim_C1 bW gW).2.2.2 [] 10 Engine.init e6w rfl⟩

/-- Claim C2 counterexample: in `c2Stream` a healthy snapshot batch is closed
by an update-kind event; the closure itself attempts no emission — the whole
run emits nothing (the post-update book is one-sided, so the sole attempt,
made only after the update is applied, fails) even though the rebuilt
pre-update book had features available. -/
theorem claim_C2_counterexample :
    (build_snapshots [] 10 c2Stream).snapshots = []
    ∧ (build_snapshots [] 10 c2Stream).crossed_book_count = 1
    ∧ (bookX.apply_snapshot c2Batch).get_snapshot_features.isSome :=
  of_decide_eq_true (by with_unfolding_all rfl)

/-- Claim C2 (amended): when the next event is update-kind, an open batch is
closed by applying apply_snapshot_batch to the buffered entries and clearing
the buffer, but WITHOUT any emission attempt at the closure; the update is
then processed from the flushed state, and emission is governed solely by
the interval policy. -/
theorem claim_C2_amended (tk : TickerLookup) (iv : ℚ) (s : Engine) (e : Event) (p : String)
    (hup : e.event_type = "update") (hp : s.current_product = some p)
    (hne : s.snapshot_events ≠ []) :
    s.flush_batch_silent.snapshots = s.snapshots
    ∧ s.flush_batch_silent.snapshot_events = []
    ∧ s.flush_batch_silent.get_book p = (s.get_book p).apply_snapshot s.snapshot_events
    ∧ Engine.step tk iv s e = Engine.update_branch tk iv (s.ensure_book e.product_id) e :=
  ⟨(flush_silent_frame s).2, flush_silent_buffer s p hne hp, flush_silent_get_book s p hne hp,
   step_update_eq tk iv s e hup⟩

/-- Witness for the amended C2 on a concrete accumulating state. -/
theorem claim_C2_amended_witness :
    (c2WEvent.event_type = "update" ∧ c2WState.current_product = some pX
      ∧ c2WState.snapshot_events ≠ [])
    ∧ (c2WState.flush_batch_silent.snapshots = c2WState.snapshots
      ∧ c2WState.flush_batch_silent.snapshot_events = []
      ∧ c2WState.flush_batch_silent.get_book pX
          = (c2WState.get_book pX).apply_snapshot c2WState.snapshot_events
      ∧ Engine.step [] 10 c2WState c2WEvent
          = Engine.update_branch [] 10 (c2WState.ensure_book c2WEvent.product_id) c2WEvent) :=
  ⟨⟨rfl, rfl, by decide⟩,
   claim_C2_amended [] 10 c2WState c2WEvent pX rfl rfl (by decide)⟩

/-- Claim C3 counterexample: rebuilding from a batch that contains a
zero-quantity entry stores that entry — price 100 is present mapping to
quantity 0 after apply_snapshot_batch, so the zero-freeness invariant fails. -/
theorem claim_C3_counterexample :
    ¬ zeroFree (bookX.apply_snapshot c3Batch).bids
    ∧ dlookup (bookX.apply_snapshot c3Batch).bids 100 = some 0 := by decide

/-- Claim C3 (amended): apply_update preserves zero-freeness of both ladders
— a zero-quantity update removes the price key and a non-zero quantity
upserts it, so no apply_update call introduces a zero-quantity key; the
snapshot rebuild, however, inserts batch entries verbatim, zero quantities
included (see the counterexample). -/
theorem claim_C3_amended (b : OrderBook) (side : String) (price q : ℚ)
    (fo : Bool) (lm : Option ℚ) (hb : zeroFree b.bids) (ha : zeroFree b.asks) :
    zeroFree (b.apply_update side price q fo lm).bids
    ∧ zeroFree (b.apply_update side price q fo lm).asks := by
  have core := apply_update_core_zeroFree b side price q hb ha
  cases fo with
  | false =>
    cases lm with
    | none => exact core
    | some m => exact core
  | true =>
    cases lm with
    | none => exact core
    | some m =>
      by_cases hout : |price - m| / m > 1 / 10
      · have hb2 : b.apply_update side price q true (some m) = b := by
          unfold OrderBook.apply_update
          dsimp only
          rw [if_pos hout]
        rw [hb2]
        exact ⟨hb, ha⟩
      · have hb2 : b.apply_update side price q true (some m)
            = b.apply_update_core side price q := by
          unfold OrderBook.apply_update
          dsimp only
          rw [if_neg hout]
        rw [hb2]
        exact core

/-- Witness for the amended C3 on the concrete healthy book `bW`. -/
theorem claim_C3_amended_witness :
    (zeroFree bW.bids ∧ zeroFree bW.asks)
    ∧ (zeroFree (bW.apply_update sideBid 100 0 true none).bids
      ∧ zeroFree (bW.apply_update sideBid 100 0 true none).asks) :=
  ⟨⟨by decide, by decide⟩,
   claim_C3_amended bW sideBid 100 0 true none (by decide) (by decide)⟩

/-- Claim C4: an update whose price fails the configured outlier test is a
no-op on the ladders. In the basic variant apply_update returns the book
unchanged when the price is more than 10 percent from the supplied reference
mid; in the EMA variant apply_update returns the book unchanged on an EMA
outlier, and the GPU driving loop, processing an update-kind event whose
price fails the EMA test, leaves the whole order-book map (and the emitted
rows) unchanged while incrementing the filtered-outlier counter by exactly 1. -/
theorem claim_C4 :
    (∀ (b : OrderBook) (side : String) (price q m : ℚ),
        |price - m| / m > 1 / 10 →
        b.apply_update side price q true (some m) = b)
    ∧ (∀ (g : OrderBookGPU) (side : String) (price q : ℚ),
        g.is_outlier price = true → g.apply_update side price q = g)
    ∧ (∀ (tk : TickerLookup) (iv : ℚ) (s : EngineG) (e : Event),
        e.event_type = "update" → s.snapshot_events = [] →
        (s.get_book e.product_id).is_outlier e.price_level = true →
        EngineG.step tk iv s e = { s with outliers_filtered := s.outliers_filtered + 1 }) := by
  refine ⟨?_, ?_, fun tk iv s e h1 h2 h3 => gpu_step_outlier tk iv s e h1 h2 h3⟩
  · intro b side price q m h
    unfold OrderBook.apply_update
    dsimp only
    rw [if_pos h]
  · intro g side price q h
    unfold OrderBookGPU.apply_update
    rw [if_pos h]

/-- Witness for C4: price 500 against a reference (and EMA) mid of 100. -/
theorem claim_C4_witness :
    (|(500 : ℚ) - 100| / 100 > 1 / 10
      ∧ gW.is_outlier 500 = true
      ∧ c4WEvent.event_type = "update" ∧ c4WState.snapshot_events = []
      ∧ (c4WState.get_book c4WEvent.product_id).is_outlier c4WEvent.price_level = true)
    ∧ (bW.apply_update sideBid 500 1 true (some 100) = bW
      ∧ gW.apply_update sideBid 500 1 = gW
      ∧ EngineG.step [] 10 c4WState c4WEvent
          = { c4WState with outliers_filtered := c4WState.outliers_filtered + 1 }) :=
  ⟨⟨of_decide_eq_true (by with_unfolding_all rfl),
    of_decide_eq_true (by with_unfolding_all rfl), rfl, rfl,
    of_decide_eq_true (by with_unfolding_all rfl)⟩,
   claim_C4.1 bW sideBid 500 1 100 (of_decide_eq_true (by with_unfolding_all rfl)),
   claim_C4.2.1 gW sideBid 500 1 (of_decide_eq_true (by with_unfolding_all rfl)),
   claim_C4.2.2 [] 10 c4WState c4WEvent rfl rfl
     (of_decide_eq_true (by with_unfolding_all rfl))⟩

set_option maxRecDepth 40000 in
/-- Claim C5: on `c5Stream`, which ends while a healthy snapshot batch is
open, the basic builder flushes the batch — applying it and emitting the
snapshot at t=0 — while the GPU builder, whose processing is documented as
the same as the CPU version, performs no end-of-input flush: it emits
nothing, never applies the batch (the book for the instrument is still
empty), and leaves the two entries sitting in the buffer. -/
theorem claim_C5_divergence :
    (build_snapshots [] 10 c5Stream).snapshots.map Row.timestamp = [0]
    ∧ (build_snapshots [] 10 c5Stream).snapshot_count = 1
    ∧ (gpu_build_snapshots [] 10 c5Stream).snapshots = []
    ∧ (gpu_build_snapshots [] 10 c5Stream).snapshot_count = 0
    ∧ (gpu_build_snapshots [] 10 c5Stream).get_book pX
        = { product_id := pX, bids := [], asks := [], ema_mid := none }
    ∧ (gpu_build_snapshots [] 10 c5Stream).snapshot_events.length = 2 :=
  of_decide_eq_true (by with_unfolding_all rfl)

set_option maxRecDepth 100000 in
/-- Claim C6: with a snapshot batch at t=0 and one valid update at each of
t = 0..20 with a 10-second interval and a healthy book throughout, exactly 3
snapshots are emitted, at t = 0, 10 and 20 (the first update attempts
emission because last_snapshot_time starts unset, and ends with the last
emission time at 20); moreover, in general, a driver step changes
last_snapshot_time only by emitting exactly one row in that step. -/
theorem claim_C6 :
    ((build_snapshots [] 10 c6Stream).snapshots.map Row.timestamp = [0, 10, 20]
      ∧ (build_snapshots [] 10 c6Stream).snapshot_count = 3
      ∧ dlookup (build_snapshots [] 10 c6Stream).last_snapshot_time pX = some 20)
    ∧ (∀ (tk : TickerLookup) (iv : ℚ) (s : Engine) (e : Event),
        (Engine.step tk iv s e).last_snapshot_time ≠ s.last_snapshot_time →
        (Engine.step tk iv s e).snapshots.length = s.snapshots.length + 1) := by
  constructor
  · exact of_decide_eq_true (by with_unfolding_all rfl)
  · intro tk iv s e h
    rcases step_shape tk iv s e with ⟨h1, _⟩ | h2
    · exact absurd h1 h
    · exact h2

/-- Witness for C6's general conjunct: a due update on a healthy book sets
the last emission time and appends exactly one row. -/
theorem claim_C6_witness :
    (Engine.step [] 10 s6w e6w).last_snapshot_time ≠ s6w.last_snapshot_time
    ∧ (Engine.step [] 10 s6w e6w).snapshots.length = s6w.snapshots.length + 1 :=
  ⟨of_decide_eq_true (by with_unfolding_all rfl),
   claim_C6.2 [] 10 s6w e6w (of_decide_eq_true (by with_unfolding_all rfl))⟩

set_option maxRecDepth 40000 in
set_option maxRecDepth 40000 in
/-- Claim C7 counterexample: in `c7BadStream` the healthy batch at t=5 is
closed by an update at t=6, 6 seconds after the prior emission at t=0 with a
10-second interval; no emission attempt is made for the closed batch — the
run emits only the t=0 row — although the rebuilt t=5 book had features
available, refuting the claim that every batch closure attempts emission. -/
theorem claim_C7_counterexample :
    (build_snapshots [] 10 c7BadStream).snapshots.map Row.timestamp = [0]
    ∧ (bookX.apply_snapshot c7Batch2).get_snapshot_features.isSome :=
  of_decide_eq_true (by with_unfolding_all rfl)

set_option maxRecDepth 40000 in
/-- Claim C7 (amended): a snapshot-kind batch closed by a differing
snapshot-kind event (or by end of input) always triggers an emission attempt
regardless of the elapsed interval — in `c7GoodStream` the t=5 closure emits
5 seconds after the t=0 emission — and in general the rows a snapshot-kind
step appends are independent of last_snapshot_time and of the configured
interval; only a batch closed by an update-kind event skips the attempt. -/
theorem claim_C7_amended :
    ((build_snapshots [] 10 c7GoodStream).snapshots.map Row.timestamp = [0, 5])
    ∧ (∀ (tk : TickerLookup) (s : Engine) (e : Event), e.event_type = "snapshot" →
        ∀ (iv1 iv2 : ℚ) (L1 L2 : List (String × ℚ)),
        (Engine.step tk iv1 { s with last_snapshot_time := L1 } e).snapshots.drop
            s.snapshots.length
          = (Engine.step tk iv2 { s with last_snapshot_time := L2 } e).snapshots.drop
            s.snapshots.length) := by
  constructor
  · exact of_decide_eq_true (by with_unfolding_all rfl)
  · intro tk s e h iv1 iv2 L1 L2
    exact step_snapshot_rows_indep tk s e h iv1 iv2 L1 L2

/-- Witness for the amended C7: the first snapshot event of a run appends the
same rows whatever the stored last emission times and intervals are. -/
theorem claim_C7_amended_witness :
    ((sevt 0 sideBid 100 1).event_type = "snapshot")
    ∧ (Engine.step [] 10 { Engine.init with last_snapshot_time := [] }
          (sevt 0 sideBid 100 1)).snapshots.drop Engine.init.snapshots.length
      = (Engine.step [] 20 { Engine.init with last_snapshot_time := [(pX, 0)] }
          (sevt 0 sideBid 100 1)).snapshots.drop Engine.init.snapshots.length :=
  ⟨rfl, claim_C7_amended.2 [] Engine.init (sevt 0 sideBid 100 1) rfl 10 20 [] [(pX, 0)]⟩

/-- Claim C8 counterexample: in `c8BadStream` the emission at t=103 comes
from a batch closure, which uses exact ticker lookup only — the emitted row
carries no ticker fields even though the tolerance search would have found
the t=100 entry 3 seconds away. -/
theorem claim_C8_counterexample :
    (build_snapshots c8Ticker 10 c8BadStream).snapshots.map Row.ticker_data = [none]
    ∧ (build_snapshots c8Ticker 10 c8BadStream).snapshots.map Row.timestamp = [103]
    ∧ tickerSearch c8Ticker 103 pX = some tkInfoW :=
  of_decide_eq_true (by with_unfolding_all rfl)

set_option maxRecDepth 40000 in
/-- Claim C8 (amended): interval-triggered (update-path) emissions annotate
with the exact (timestamp, instrument) ticker entry first and, only when no
exact match exists, with offsets +1s, -1s, ..., up to 5s, first hit winning
— in `c8Stream` the update-path emission at t=103 carries the t=100 fields;
an exact hit always takes precedence, and the search succeeds exactly when a
hit exists at the timestamp itself or within the scanned offsets. Closure
and end-of-input emissions use exact lookup only (see the counterexample). -/
theorem claim_C8_amended :
    ((build_snapshots c8Ticker 10 c8Stream).snapshots.map Row.ticker_data = [some tkInfoW]
      ∧ (build_snapshots c8Ticker 10 c8Stream).snapshots.map Row.timestamp = [103])
    ∧ (∀ (tk : TickerLookup) (t : ℚ) (p : String) (d : TickerInfo),
        tickerExact tk t p = some d → tickerSearch tk t p = some d)
    ∧ (∀ (tk : TickerLookup) (t : ℚ) (p : String),
        (tickerSearch tk t p).isSome ↔
          ((tickerExact tk t p).isSome ∨ ∃ d ∈ ([1, 2, 3, 4, 5] : List ℚ),
            ((tickerExact tk (t + d) p).isSome ∨ (tickerExact tk (t - d) p).isSome))) := by
  refine ⟨of_decide_eq_true (by with_unfolding_all rfl), ?_, ?_⟩
  · intro tk t p d h
    unfold tickerSearch
    rw [h]
  · intro tk t p
    unfold tickerSearch
    cases h : tickerExact tk t p with
    | some x => simp [h]
    | none => simp [h, deltaScan_isSome]

/-- Witness for the amended C8: the exact hit at t=100 takes precedence, and
the search-window characterization instantiated at t=103. -/
theorem claim_C8_amended_witness :
    (tickerExact c8Ticker 100 pX = some tkInfoW)
    ∧ tickerSearch c8Ticker 100 pX = some tkInfoW
    ∧ ((tickerSearch c8Ticker 103 pX).isSome ↔
        ((tickerExact c8Ticker 103 pX).isSome ∨ ∃ d ∈ ([1, 2, 3, 4, 5] : List ℚ),
          ((tickerExact c8Ticker (103 + d) pX).isSome
            ∨ (tickerExact c8Ticker (103 - d) pX).isSome))) :=
  ⟨by decide,
   claim_C8_amended.2.1 c8Ticker 100 pX tkInfoW (by decide),
   claim_C8_amended.2.2 c8Ticker 103 pX⟩

/-- Claim C9 counterexample: a malformed event reaching the core is NOT
skipped — an update with the unknown side value `zzz` is applied to the asks
ladder, and a bid update with negative quantity -1 is stored as a regular
level — in both cases the ladders are mutated. -/
theorem claim_C9_counterexample :
    (bookX.apply_update sideZZ 50 1 true none).asks = [(50, 1)]
    ∧ (bookX.apply_update sideZZ 50 1 true none).bids = []
    ∧ (bookX.apply_update sideBid 100 (-1) true none).bids = [(100, -1)] :=
  of_decide_eq_true (by with_unfolding_all rfl)

/-- Claim C9 (amended): the core performs no malformed-event detection and
never aborts — apply_update is a total function; an event whose side is not
the bid string (unknown values included) is applied to the asks ladder,
leaving the bids untouched, and any non-zero quantity, negative included, is
upserted at its price. -/
theorem claim_C9_amended (b : OrderBook) (side : String) (price q : ℚ)
    (hside : side ≠ "bid") (hq : q ≠ 0) :
    (b.apply_update side price q true none).bids = b.bids
    ∧ (b.apply_update side price q true none).asks = dinsert b.asks price q
    ∧ ∀ q2 : ℚ, q2 ≠ 0 →
        (b.apply_update sideBid price q2 true none).bids = dinsert b.bids price q2 := by
  refine ⟨?_, ?_, ?_⟩
  · show (b.apply_update_core side price q).bids = b.bids
    unfold OrderBook.apply_update_core
    rw [if_neg hside, if_neg hq]
  · show (b.apply_update_core side price q).asks = dinsert b.asks price q
    unfold OrderBook.apply_update_core
    rw [if_neg hside, if_neg hq]
  · intro q2 hq2
    show (b.apply_update_core sideBid price q2).bids = dinsert b.bids price q2
    unfold OrderBook.apply_update_core
    rw [if_pos (show sideBid = "bid" from rfl), if_neg hq2]

/-- Witness for the amended C9 at the unknown side `zzz`, price 50,
quantity 2 on the healthy book `bW`. -/
theorem claim_C9_amended_witness :
    (sideZZ ≠ "bid" ∧ (2 : ℚ) ≠ 0)
    ∧ ((bW.apply_update sideZZ 50 2 true none).bids = bW.bids
      ∧ (bW.apply_update sideZZ 50 2 true none).asks = dinsert bW.asks 50 2
      ∧ ∀ q2 : ℚ, q2 ≠ 0 →
          (bW.apply_update sideBid 50 q2 true none).bids = dinsert bW.bids 50 q2) :=
  ⟨⟨by decide, by decide⟩, claim_C9_amended bW sideZZ 50 2 (by decide) (by decide)⟩

/-- Claim C10: in the basic builder the outlier filter is never engaged —
apply_update with the default missing reference mid equals the unconditional
mutation for every input, and the driving loop, which never supplies a
reference, leaves the instrument's book after any update-kind step equal to
the unconditional mutation of the book it held after the (possibly empty)
silent batch flush: no update is ever rejected or counted as filtered (the
basic driver state has no filtered counter at all). -/
theorem claim_C10 :
    (∀ (b : OrderBook) (side : String) (price q : ℚ),
        b.apply_update side price q true none = b.apply_update_core side price q)
    ∧ (∀ (tk : TickerLookup) (iv : ℚ) (s : Engine) (e : Event),
        e.event_type = "update" →
        (Engine.step tk iv s e).get_book e.product_id
          = ((s.ensure_book e.product_id).flush_batch_silent.get_book
              e.product_id).apply_update_core e.side e.price_level e.new_quantity) := by
  refine ⟨fun b side price q => rfl, ?_⟩
  intro tk iv s e hup
  rw [step_update_eq tk iv s e hup, update_branch_get_book]
  exact apply_update_none_eq_core _ _ _ _

/-- Witness for C10: the first update of a run is applied unconditionally. -/
theorem claim_C10_witness :
    (e6w.event_type = "update")
    ∧ (Engine.step [] 10 Engine.init e6w).get_book e6w.product_id
        = ((Engine.init.ensure_book e6w.product_id).flush_batch_silent.get_book
            e6w.product_id).apply_update_core e6w.side e6w.price_level e6w.new_quantity :=
  ⟨rfl, claim_C10.2 [] 10 Engine.init e6w rfl⟩
